import Mathlib

/-
  Verification of the cross-cluster replication inspector of kube-arangodb
  (pkg/replication, function `inspectDeploymentReplication`).

  The inspector is embedded shallowly: every remote or fallible call made
  during one inspection (finalizer writes, syncmaster client construction,
  status fetches, endpoint/authentication derivation, cancel/configure calls,
  status persistence) is represented by its outcome, recorded in an `Env`
  value fixed for the inspection.  The inspector itself is a pure function
  from `(Config, Env, DeploymentReplication, lastInterval)` to a result
  record exposing the returned interval together with the final values of the
  local variables of the Go function (`hasError`, the flags, the condition
  list, the error streak) and which remote calls were issued.

  Durations are modelled in whole seconds as `Nat` (the Go code only ever
  assigns, compares and clamps durations, so the unit is irrelevant).
-/

namespace KubeArango

/-- An arangosync endpoint: a list of address strings (client.Endpoint). -/
abbrev Endpoint := List String

/-- Intersection of two endpoints: the addresses occurring in both.
Models `client.Endpoint.Intersection` of the external arangosync client. -/
def epIntersection (a b : Endpoint) : Endpoint :=
  a.filter (fun x => b.contains x)

/-- Snapshot of a syncmaster's state, as reported by `Master().Status()`:
the activity flag (`Status.IsActive()`), the set of incoming source
endpoints (`Source`) and the endpoints of the outgoing items (`Outgoing`). -/
structure SyncInfo where
  isActive : Bool
  source : Endpoint
  outgoing : List Endpoint
deriving DecidableEq, Repr

/-- The zero value of `client.SyncInfo`: inactive, no endpoints.  This is the
value the Go code keeps using when the source status fetch returns an error
(the fetch error is logged but `sourceStatus` stays at its zero value). -/
def SyncInfo.zero : SyncInfo := ⟨false, [], []⟩

/-- A status condition `(type, status, reason, message)`. -/
structure Condition where
  condType : String
  status : Bool
  reason : String
  message : String
deriving DecidableEq, Repr

/-- Modelled from the spec: `ConditionList.Update` (the conditions helper of
the api package is not among the given sources).  Per the spec, comparison is
by full tuple equality against the current stored condition of that type,
unseen types are inserted as changed; returns (changed, updated list). -/
def conditionsUpdate : List Condition → String → Bool → String → String → Bool × List Condition
  | [], t, s, r, m => (true, [⟨t, s, r, m⟩])
  | c :: cs, t, s, r, m =>
    if c.condType = t then
      if c.status = s ∧ c.reason = r ∧ c.message = m then
        (false, c :: cs)
      else
        (true, ⟨t, s, r, m⟩ :: cs)
    else
      let u := conditionsUpdate cs t s r m
      (u.1, c :: u.2)

/-- `isIncomingEndpoint`: true when the given sync status's source endpoint
intersects the endpoint derived from the endpoint spec; the derivation result
(`createArangoSyncEndpoint`) is passed in as `epRes`. -/
def isIncomingEndpoint (epRes : Except Unit Endpoint) (status : SyncInfo) : Except Unit Bool :=
  match epRes with
  | .error e => .error e
  | .ok ep => .ok (!(epIntersection status.source ep).isEmpty)

/-- `hasOutgoingEndpoint`: true when the given sync status has an outgoing
item whose endpoint intersects the endpoint derived from the endpoint spec;
the derivation result (`createArangoSyncEndpoint`) is passed in as `epRes`. -/
def hasOutgoingEndpoint (epRes : Except Unit Endpoint) (status : SyncInfo) : Except Unit Bool :=
  match epRes with
  | .error e => .error e
  | .ok ep => .ok (status.outgoing.any (fun o => !(epIntersection o ep).isEmpty))

/-- Modelled from the spec: the two interval constants `minInspectionInterval`
and `maxInspectionInterval` of the replication package (their defining file is
not among the given sources; the spec only names them), in seconds. -/
structure Config where
  minInspectionInterval : Nat
  maxInspectionInterval : Nat
deriving DecidableEq, Repr

/-- The locally relevant state of one DeploymentReplication object:
whether `Status.Phase == Failed`, whether a deletion timestamp is set,
the condition list `Status.Conditions`, and the per-object error streak
`dr.recentInspectionErrors`. -/
structure DeploymentReplication where
  phaseFailed : Bool
  deletionTimestampSet : Bool
  conditions : List Condition
  recentInspectionErrors : Nat
deriving DecidableEq, Repr

/-- Outcomes of every remote / fallible call one inspection can make.
Each field corresponds to one call site of `inspectDeploymentReplication`:
- `addFinalizersErr`: `dr.addFinalizers()` (its error is only logged);
- `runFinalizersErr`: `dr.runFinalizers(ctx, ...)` on the deletion path;
- `createDestClientErr`: `dr.createSyncMasterClient(spec.Destination)`;
- `destStatusRes`: `destClient.Master().Status(ctx)`;
- `sourceEndpointRes`: `dr.createArangoSyncEndpoint(spec.Source)` (used by
  `isIncomingEndpoint` and by the configure branch — the two uses are on
  mutually exclusive paths, so one outcome per inspection is faithful);
- `destEndpointRes`: `dr.createArangoSyncEndpoint(spec.Destination)` (used
  by `hasOutgoingEndpoint` in the source-side cross-check);
- `createSourceClientErr`: `dr.createSyncMasterClient(spec.Source)`;
- `sourceStatusRes`: `sourceClient.Master().Status(ctx)`;
- `updateCRStatusErr`: `dr.updateCRStatus()`;
- `cancelErr`: `destClient.Master().CancelSynchronization(ctx, req)`;
- `authRes`: `dr.createArangoSyncTLSAuthentication(spec)`;
- `synchronizeErr`: `destClient.Master().Synchronize(ctx, req)`. -/
structure Env where
  addFinalizersErr : Bool
  runFinalizersErr : Bool
  createDestClientErr : Bool
  destStatusRes : Except Unit SyncInfo
  sourceEndpointRes : Except Unit Endpoint
  destEndpointRes : Except Unit Endpoint
  createSourceClientErr : Bool
  sourceStatusRes : Except Unit SyncInfo
  updateCRStatusErr : Bool
  cancelErr : Bool
  authRes : Except Unit Unit
  synchronizeErr : Bool

/-- Result of the part of the inspection that runs when the destination
client was created (and of the deletion / client-error paths, with the flags
at their initial `false`).  Records the interval and `hasError` as computed
before the error-streak block, the final condition list, the three local
flags, which calls were issued, and the diagnostic outcome of the source-side
cross-check (`none` when the check did not run; otherwise the
`hasOutgoingEndpoint` result). -/
structure BodyResult where
  nextInterval : Nat
  hasError : Bool
  conditions : List Condition
  updateStatusNeeded : Bool
  configureSyncNeeded : Bool
  cancelSyncNeeded : Bool
  runFinalizersCalled : Bool
  cancelCalled : Bool
  synchronizeCalled : Bool
  sourceDiag : Option (Except Unit Bool)

/-- Destination inspection (lines 72–107): fetch the destination status and
derive `(updateStatusNeeded, configureSyncNeeded, cancelSyncNeeded,
conditions)`.  A status-fetch failure or `isIncomingEndpoint` failure is only
logged: all flags stay false and the conditions are unchanged. -/
def destInspect (destStatusRes : Except Unit SyncInfo)
    (sourceEndpointRes : Except Unit Endpoint) (conds : List Condition) :
    Bool × Bool × Bool × List Condition :=
  match destStatusRes with
  | .error _ => (false, false, false, conds)
  | .ok destStatus =>
    if destStatus.isActive then
      match isIncomingEndpoint sourceEndpointRes destStatus with
      | .error _ => (false, false, false, conds)
      | .ok true =>
        let u := conditionsUpdate conds "Configured" true "Active"
          "Destination syncmaster is configured correctly and active"
        (u.1, false, false, u.2)
      | .ok false =>
        let u := conditionsUpdate conds "Configured" false "Invalid"
          "Destination syncmaster is configured for different source"
        (u.1, false, true, u.2)
    else
      let u := conditionsUpdate conds "Configured" false "Inactive"
        "Destination syncmaster is configured correctly but in-active"
      (u.1, true, false, u.2)

/-- Source inspection (lines 109–129): purely diagnostic.  Returns `none`
when the source client could not be created or the (effective) source status
is inactive; on a status-fetch error the zero value of `SyncInfo` is used,
exactly as in the Go code. -/
def sourceInspect (createSourceClientErr : Bool)
    (sourceStatusRes : Except Unit SyncInfo)
    (destEndpointRes : Except Unit Endpoint) : Option (Except Unit Bool) :=
  if createSourceClientErr then none
  else
    let sourceStatus := match sourceStatusRes with
      | .ok s => s
      | .error _ => SyncInfo.zero
    if sourceStatus.isActive then
      some (hasOutgoingEndpoint destEndpointRes sourceStatus)
    else none

/-- The action stage of the destination-client branch, given the flags and
conditions produced by the destination inspection: the status write
(lines 131–137), the cancel call (139–150) and the configure call
(152–178). -/
def actPart (updateStatusNeeded configureSyncNeeded cancelSyncNeeded : Bool)
    (conds : List Condition) (sourceEndpointRes : Except Unit Endpoint)
    (updateCRStatusErr cancelErr : Bool) (authRes : Except Unit Unit)
    (synchronizeErr : Bool) (lastInterval : Nat) : BodyResult :=
  -- Update status if needed (lines 131-137)
  let hasError := if updateStatusNeeded then updateCRStatusErr else false
  -- Cancel sync if needed (lines 139-150)
  let c : Nat × Bool × Bool :=
    if cancelSyncNeeded then
      if cancelErr then (lastInterval, true, true)
      else (10, hasError, true)
    else (lastInterval, hasError, false)
  let nextInterval := c.1
  let hasError := c.2.1
  let cancelCalled := c.2.2
  -- Configure sync if needed (lines 152-178)
  let g : Nat × Bool × Bool :=
    if configureSyncNeeded then
      match sourceEndpointRes with
      | .error _ => (nextInterval, true, false)
      | .ok _ =>
        match authRes with
        | .error _ => (nextInterval, true, false)
        | .ok _ =>
          if synchronizeErr then (nextInterval, true, true)
          else (10, hasError, true)
    else (nextInterval, hasError, false)
  { nextInterval := g.1
    hasError := g.2.1
    conditions := conds
    updateStatusNeeded := updateStatusNeeded
    configureSyncNeeded := configureSyncNeeded
    cancelSyncNeeded := cancelSyncNeeded
    runFinalizersCalled := false
    cancelCalled := cancelCalled
    synchronizeCalled := g.2.2
    sourceDiag := none }

/-- The effectful part of the destination-client branch: destination
inspection (lines 72–107) followed by the action stage (lines 131–178).
The source-side block (109–129) sits between these in the Go code but
neither reads nor writes any of the variables used here, so it is composed
separately in `inspectActive`. -/
def effectPart (destStatusRes : Except Unit SyncInfo)
    (sourceEndpointRes : Except Unit Endpoint)
    (updateCRStatusErr cancelErr : Bool) (authRes : Except Unit Unit)
    (synchronizeErr : Bool) (conds : List Condition) (lastInterval : Nat) :
    BodyResult :=
  let d := destInspect destStatusRes sourceEndpointRes conds
  actPart d.1 d.2.1 d.2.2.1 d.2.2.2 sourceEndpointRes updateCRStatusErr
    cancelErr authRes synchronizeErr lastInterval

/-- The destination-client branch (lines 72–179): the effectful part plus the
diagnostic source-side cross-check. -/
def inspectActive (env : Env) (conds : List Condition) (lastInterval : Nat) :
    BodyResult :=
  { effectPart env.destStatusRes env.sourceEndpointRes env.updateCRStatusErr
      env.cancelErr env.authRes env.synchronizeErr conds lastInterval with
    sourceDiag := sourceInspect env.createSourceClientErr env.sourceStatusRes
      env.destEndpointRes }

/-- Everything between the Failed-phase guard and the error-streak block
(lines 59–180): the deletion path runs the finalizers (an error sets
`hasError`); otherwise a destination-client creation failure is only logged
and the whole body is skipped; otherwise the destination-client branch
runs. -/
def inspectPreStreak (env : Env) (dr : DeploymentReplication)
    (lastInterval : Nat) : BodyResult :=
  if dr.deletionTimestampSet then
    { nextInterval := lastInterval
      hasError := env.runFinalizersErr
      conditions := dr.conditions
      updateStatusNeeded := false
      configureSyncNeeded := false
      cancelSyncNeeded := false
      runFinalizersCalled := true
      cancelCalled := false
      synchronizeCalled := false
      sourceDiag := none }
  else if env.createDestClientErr then
    { nextInterval := lastInterval
      hasError := false
      conditions := dr.conditions
      updateStatusNeeded := false
      configureSyncNeeded := false
      cancelSyncNeeded := false
      runFinalizersCalled := false
      cancelCalled := false
      synchronizeCalled := false
      sourceDiag := none }
  else
    inspectActive env dr.conditions lastInterval

/-- The error-streak block and the final clamp (lines 182–194): on an error
with a previously-zero streak the interval becomes `minInspectionInterval`
and the streak is bumped to 1; on an error with a non-zero streak nothing
changes; with no error the streak resets to 0; finally the interval is
clamped from above by `maxInspectionInterval`.  Returns
(final interval, new streak). -/
def applyErrorPolicy (cfg : Config) (recentInspectionErrors : Nat)
    (nextInterval : Nat) (hasError : Bool) : Nat × Nat :=
  let p :=
    if hasError then
      if recentInspectionErrors = 0 then
        (cfg.minInspectionInterval, recentInspectionErrors + 1)
      else
        (nextInterval, recentInspectionErrors)
    else
      (nextInterval, 0)
  (if p.1 > cfg.maxInspectionInterval then cfg.maxInspectionInterval else p.1, p.2)

/-- The final observable outcome of one inspection: the returned interval,
the final values of `hasError` and `dr.recentInspectionErrors`, the condition
list, the flags, which calls were issued, and the diagnostic source-check
outcome. -/
structure InspectResult where
  nextInterval : Nat
  hasError : Bool
  recentInspectionErrors : Nat
  conditions : List Condition
  updateStatusNeeded : Bool
  configureSyncNeeded : Bool
  cancelSyncNeeded : Bool
  runFinalizersCalled : Bool
  cancelCalled : Bool
  synchronizeCalled : Bool
  sourceDiag : Option (Except Unit Bool)

/-- Shallow embedding of `inspectDeploymentReplication` (lines 40–195).
The `addFinalizers` call (lines 48–51) happens first and its error is only
logged, so its outcome (`env.addFinalizersErr`) is never consulted.  A Failed
phase returns `lastInterval` immediately (before the error-streak block and
the clamp); otherwise the body runs and the error-streak policy and clamp
produce the returned interval and the new streak. -/
def inspectDeploymentReplication (cfg : Config) (env : Env)
    (dr : DeploymentReplication) (lastInterval : Nat) : InspectResult :=
  if dr.phaseFailed then
    { nextInterval := lastInterval
      hasError := false
      recentInspectionErrors := dr.recentInspectionErrors
      conditions := dr.conditions
      updateStatusNeeded := false
      configureSyncNeeded := false
      cancelSyncNeeded := false
      runFinalizersCalled := false
      cancelCalled := false
      synchronizeCalled := false
      sourceDiag := none }
  else
    let b := inspectPreStreak env dr lastInterval
    let p := applyErrorPolicy cfg dr.recentInspectionErrors b.nextInterval b.hasError
    { nextInterval := p.1
      hasError := b.hasError
      recentInspectionErrors := p.2
      conditions := b.conditions
      updateStatusNeeded := b.updateStatusNeeded
      configureSyncNeeded := b.configureSyncNeeded
      cancelSyncNeeded := b.cancelSyncNeeded
      runFinalizersCalled := b.runFinalizersCalled
      cancelCalled := b.cancelCalled
      synchronizeCalled := b.synchronizeCalled
      sourceDiag := b.sourceDiag }

/-- The non-diagnostic observables of an inspection: everything except the
source-side cross-check outcome. -/
def observables (r : InspectResult) :
    Nat × Bool × Nat × List Condition × Bool × Bool × Bool × Bool × Bool × Bool :=
  (r.nextInterval, r.hasError, r.recentInspectionErrors, r.conditions,
   r.updateStatusNeeded, r.configureSyncNeeded, r.cancelSyncNeeded,
   r.runFinalizersCalled, r.cancelCalled, r.synchronizeCalled)

/-! ### Concrete fixtures used by examples, counterexamples and witnesses -/

/-- A configuration with the repository's actual interval values
(10 seconds, 1 minute). -/
def cfg0 : Config := ⟨10, 60⟩

/-- Fully benign call outcomes: every call succeeds, the destination is
active and its source set intersects the endpoint derived from the spec's
source. -/
def envOk : Env :=
  { addFinalizersErr := false
    runFinalizersErr := false
    createDestClientErr := false
    destStatusRes := .ok ⟨true, ["src"], []⟩
    sourceEndpointRes := .ok ["src"]
    destEndpointRes := .ok ["dst"]
    createSourceClientErr := false
    sourceStatusRes := .ok ⟨true, [], [["dst"]]⟩
    updateCRStatusErr := false
    cancelErr := false
    authRes := .ok ()
    synchronizeErr := false }

/-- An object in the normal phase, no deletion requested, already carrying
the Active condition, with a zero error streak. -/
def drOk : DeploymentReplication :=
  { phaseFailed := false
    deletionTimestampSet := false
    conditions := [⟨"Configured", true, "Active",
      "Destination syncmaster is configured correctly and active"⟩]
    recentInspectionErrors := 0 }

/-- An object whose phase is Failed, with a non-zero error streak. -/
def drFailed : DeploymentReplication :=
  { drOk with phaseFailed := true, recentInspectionErrors := 1 }

/-- An object whose deletion timestamp is set. -/
def drDeleting : DeploymentReplication :=
  { drOk with deletionTimestampSet := true }

/-- An object with a non-zero error streak. -/
def drStreak2 : DeploymentReplication :=
  { drOk with recentInspectionErrors := 2 }

/-- An object with an empty condition list (so any condition update
changes it and forces a status write). -/
def drNoConds : DeploymentReplication :=
  { drOk with conditions := [] }

/-- Benign outcomes except that the destination reports an active sync from
a different source. -/
def envMisdirected : Env :=
  { envOk with destStatusRes := .ok ⟨true, ["other"], []⟩ }

/-- Benign outcomes except that fetching the destination status fails. -/
def envFetchErr : Env :=
  { envOk with destStatusRes := .error () }

/-- Benign outcomes except that creating the destination client fails. -/
def envClientErr : Env :=
  { envOk with createDestClientErr := true }

/-- Benign outcomes except that running the finalizers fails. -/
def envRunFinErr : Env :=
  { envOk with runFinalizersErr := true }

/-- Benign outcomes except that the destination is inactive. -/
def envInactive : Env :=
  { envOk with destStatusRes := .ok ⟨false, [], []⟩ }

/-- The destination is inactive and the status write fails. -/
def envInactiveUpdErr : Env :=
  { envOk with destStatusRes := .ok ⟨false, [], []⟩, updateCRStatusErr := true }

/-- Benign outcomes except that adding the finalizers fails. -/
def envAddFinErr : Env :=
  { envOk with addFinalizersErr := true }

/-! ### Helper lemmas -/

/-- The destination inspection never sets both action flags: the
configure flag comes only from the inactive branch and the cancel flag only
from the active-but-misdirected branch. -/
theorem destInspect_flags_exclusive (d : Except Unit SyncInfo)
    (s : Except Unit Endpoint) (conds : List Condition) :
    ((destInspect d s conds).2.1 && (destInspect d s conds).2.2.1) = false := by
  rcases d with e | ds
  · rfl
  · rcases hi : isIncomingEndpoint s ds with e | b
    · cases hb : ds.isActive <;> simp [destInspect, hb, hi]
    · cases hb : ds.isActive <;> cases b <;> simp [destInspect, hb, hi]

/-- The configure flag of the destination-client branch is the one computed
by the destination inspection. -/
theorem inspectActive_configure (env : Env) (conds : List Condition) (last : Nat) :
    (inspectActive env conds last).configureSyncNeeded =
      (destInspect env.destStatusRes env.sourceEndpointRes conds).2.1 := rfl

/-- The cancel flag of the destination-client branch is the one computed by
the destination inspection. -/
theorem inspectActive_cancel (env : Env) (conds : List Condition) (last : Nat) :
    (inspectActive env conds last).cancelSyncNeeded =
      (destInspect env.destStatusRes env.sourceEndpointRes conds).2.2.1 := rfl

/-- The cancel call is issued exactly when the cancel flag is set. -/
theorem actPart_cancelCalled (u cf cn : Bool) (conds : List Condition)
    (ser : Except Unit Endpoint) (uce ce : Bool) (ar : Except Unit Unit)
    (se : Bool) (last : Nat) :
    (actPart u cf cn conds ser uce ce ar se last).cancelCalled = cn := by
  cases cn
  · rfl
  · cases ce <;> rfl

/-- When the action flags are not both set, at most one of the two remote
calls is issued. -/
theorem actPart_calls_exclusive (u cf cn : Bool) (conds : List Condition)
    (ser : Except Unit Endpoint) (uce ce : Bool) (ar : Except Unit Unit)
    (se : Bool) (last : Nat) (hf : (cf && cn) = false) :
    ((actPart u cf cn conds ser uce ce ar se last).synchronizeCalled &&
     (actPart u cf cn conds ser uce ce ar se last).cancelCalled) = false := by
  cases cf <;> cases cn <;> cases ce <;> rcases ser with e | ep <;>
    rcases ar with e2 | a <;> cases se <;> simp_all [actPart]

/-- A failing status write (attempted because a condition changed) marks
`hasError`, whatever the rest of the action stage does. -/
theorem actPart_statusWrite_error (cf cn : Bool) (conds : List Condition)
    (ser : Except Unit Endpoint) (ce : Bool) (ar : Except Unit Unit)
    (se : Bool) (last : Nat) :
    (actPart true cf cn conds ser true ce ar se last).hasError = true := by
  cases cf <;> cases cn <;> cases ce <;> rcases ser with e | ep <;>
    rcases ar with e2 | a <;> cases se <;> rfl

/-- Unfolding of the inspector for a non-Failed phase: body, then
error-streak policy and clamp. -/
theorem inspect_eq_body (cfg : Config) (env : Env) (dr : DeploymentReplication)
    (lastInterval : Nat) (hp : dr.phaseFailed = false) :
    inspectDeploymentReplication cfg env dr lastInterval =
      { nextInterval := (applyErrorPolicy cfg dr.recentInspectionErrors
          (inspectPreStreak env dr lastInterval).nextInterval
          (inspectPreStreak env dr lastInterval).hasError).1
        hasError := (inspectPreStreak env dr lastInterval).hasError
        recentInspectionErrors := (applyErrorPolicy cfg dr.recentInspectionErrors
          (inspectPreStreak env dr lastInterval).nextInterval
          (inspectPreStreak env dr lastInterval).hasError).2
        conditions := (inspectPreStreak env dr lastInterval).conditions
        updateStatusNeeded := (inspectPreStreak env dr lastInterval).updateStatusNeeded
        configureSyncNeeded := (inspectPreStreak env dr lastInterval).configureSyncNeeded
        cancelSyncNeeded := (inspectPreStreak env dr lastInterval).cancelSyncNeeded
        runFinalizersCalled := (inspectPreStreak env dr lastInterval).runFinalizersCalled
        cancelCalled := (inspectPreStreak env dr lastInterval).cancelCalled
        synchronizeCalled := (inspectPreStreak env dr lastInterval).synchronizeCalled
        sourceDiag := (inspectPreStreak env dr lastInterval).sourceDiag } := by
  simp [inspectDeploymentReplication, hp]

/-- On the deletion path the body only runs the finalizers. -/
theorem inspectPreStreak_deletion (env : Env) (dr : DeploymentReplication)
    (lastInterval : Nat) (hd : dr.deletionTimestampSet = true) :
    inspectPreStreak env dr lastInterval =
      { nextInterval := lastInterval
        hasError := env.runFinalizersErr
        conditions := dr.conditions
        updateStatusNeeded := false
        configureSyncNeeded := false
        cancelSyncNeeded := false
        runFinalizersCalled := true
        cancelCalled := false
        synchronizeCalled := false
        sourceDiag := none } := by
  simp [inspectPreStreak, hd]

/-- When the destination client cannot be created, the body does nothing. -/
theorem inspectPreStreak_clientErr (env : Env) (dr : DeploymentReplication)
    (lastInterval : Nat) (hd : dr.deletionTimestampSet = false)
    (hc : env.createDestClientErr = true) :
    inspectPreStreak env dr lastInterval =
      { nextInterval := lastInterval
        hasError := false
        conditions := dr.conditions
        updateStatusNeeded := false
        configureSyncNeeded := false
        cancelSyncNeeded := false
        runFinalizersCalled := false
        cancelCalled := false
        synchronizeCalled := false
        sourceDiag := none } := by
  simp [inspectPreStreak, hd, hc]

/-- When the destination client is created, the body is the
destination-client branch. -/
theorem inspectPreStreak_active (env : Env) (dr : DeploymentReplication)
    (lastInterval : Nat) (hd : dr.deletionTimestampSet = false)
    (hc : env.createDestClientErr = false) :
    inspectPreStreak env dr lastInterval =
      inspectActive env dr.conditions lastInterval := by
  simp [inspectPreStreak, hd, hc]

/-- The clamp bounds the returned interval from above, whatever the streak
and error flag. -/
theorem applyErrorPolicy_le (cfg : Config) (rec ni : Nat) (he : Bool) :
    (applyErrorPolicy cfg rec ni he).1 ≤ cfg.maxInspectionInterval := by
  have h : ∀ n : Nat,
      (if n > cfg.maxInspectionInterval then cfg.maxInspectionInterval else n) ≤
        cfg.maxInspectionInterval := by
    intro n
    split <;> omega
  exact h _

/-- An error with a previously-zero streak narrows the interval to the
minimum and bumps the streak to 1. -/
theorem applyErrorPolicy_error_zero (cfg : Config) (ni : Nat)
    (hm : cfg.minInspectionInterval ≤ cfg.maxInspectionInterval) :
    applyErrorPolicy cfg 0 ni true = (cfg.minInspectionInterval, 1) := by
  have h : ¬ (cfg.minInspectionInterval > cfg.maxInspectionInterval) := by omega
  simp [applyErrorPolicy, h]

/-- An error with a non-zero streak leaves interval (apart from the clamp)
and streak unchanged. -/
theorem applyErrorPolicy_error_pos (cfg : Config) (rec ni : Nat)
    (hr : rec ≠ 0) :
    applyErrorPolicy cfg rec ni true =
      (if ni > cfg.maxInspectionInterval then cfg.maxInspectionInterval else ni,
       rec) := by
  simp [applyErrorPolicy, hr]

/-- No error: the streak resets and the interval is only clamped. -/
theorem applyErrorPolicy_noError (cfg : Config) (rec ni : Nat) :
    applyErrorPolicy cfg rec ni false =
      (if ni > cfg.maxInspectionInterval then cfg.maxInspectionInterval else ni, 0) := rfl

/-- A condition written by `conditionsUpdate` is present in the updated
list. -/
theorem conditionsUpdate_mem (l : List Condition) (t : String) (s : Bool)
    (rsn m : String) :
    (⟨t, s, rsn, m⟩ : Condition) ∈ (conditionsUpdate l t s rsn m).2 := by
  induction l with
  | nil => simp [conditionsUpdate]
  | cons c cs ih =>
    unfold conditionsUpdate
    by_cases h1 : c.condType = t
    · by_cases h2 : c.status = s ∧ c.reason = rsn ∧ c.message = m
      · rw [if_pos h1, if_pos h2]
        have hc : c = ⟨t, s, rsn, m⟩ := by
          obtain ⟨h2a, h2b, h2c⟩ := h2
          cases c
          simp_all
        simp [hc]
      · rw [if_pos h1, if_neg h2]
        simp
    · rw [if_neg h1]
      exact List.mem_cons_of_mem _ ih

/-- When the destination status fetch fails, the destination-client branch
only logs: no flag is set, no call is issued, the conditions are unchanged
and `hasError` stays false (only the diagnostic source check still runs). -/
theorem inspectActive_fetchErr (env : Env) (conds : List Condition)
    (lastInterval : Nat) (he : env.destStatusRes = Except.error ()) :
    inspectActive env conds lastInterval =
      { nextInterval := lastInterval
        hasError := false
        conditions := conds
        updateStatusNeeded := false
        configureSyncNeeded := false
        cancelSyncNeeded := false
        runFinalizersCalled := false
        cancelCalled := false
        synchronizeCalled := false
        sourceDiag := sourceInspect env.createSourceClientErr
          env.sourceStatusRes env.destEndpointRes } := by
  unfold inspectActive effectPart destInspect
  rw [he]
  rfl

/-- When the destination is inactive and the endpoint/authentication
derivations, the configure call and the (possibly needed) status write all
succeed, the branch updates the Configured condition to Inactive, issues the
configure call and sets the 10 s action interval with no error. -/
theorem inspectActive_inactive (env : Env) (conds : List Condition)
    (lastInterval : Nat) (ds : SyncInfo)
    (hds : env.destStatusRes = Except.ok ds) (hact : ds.isActive = false)
    (ep : Endpoint) (hep : env.sourceEndpointRes = Except.ok ep)
    (hauth : env.authRes = Except.ok ()) (hsync : env.synchronizeErr = false)
    (hupd : env.updateCRStatusErr = false) :
    inspectActive env conds lastInterval =
      { nextInterval := 10
        hasError := false
        conditions := (conditionsUpdate conds "Configured" false "Inactive"
          "Destination syncmaster is configured correctly but in-active").2
        updateStatusNeeded := (conditionsUpdate conds "Configured" false "Inactive"
          "Destination syncmaster is configured correctly but in-active").1
        configureSyncNeeded := true
        cancelSyncNeeded := false
        runFinalizersCalled := false
        cancelCalled := false
        synchronizeCalled := true
        sourceDiag := sourceInspect env.createSourceClientErr
          env.sourceStatusRes env.destEndpointRes } := by
  unfold inspectActive effectPart destInspect actPart
  rw [hds]
  simp [hact, hep, hauth, hsync, hupd, ite_self]

/-! ### Sanity examples -/

example : (inspectDeploymentReplication cfg0 envOk drOk 30).nextInterval = 30 := rfl
example : (inspectDeploymentReplication cfg0 envOk drOk 30).hasError = false := rfl
example : (inspectDeploymentReplication cfg0 envOk drOk 30).updateStatusNeeded = false := rfl
example : (inspectDeploymentReplication cfg0 envOk drOk 90).nextInterval = 60 := rfl
example :
    (inspectDeploymentReplication cfg0
      { envOk with destStatusRes := .ok ⟨false, [], []⟩ } drOk 30).synchronizeCalled = true := rfl
example :
    (inspectDeploymentReplication cfg0
      { envOk with destStatusRes := .ok ⟨false, [], []⟩ } drOk 30).nextInterval = 10 := rfl
example :
    (inspectDeploymentReplication cfg0
      { envOk with destStatusRes := .ok ⟨true, ["other"], []⟩ } drOk 30).cancelCalled = true := rfl
example :
    (inspectDeploymentReplication cfg0
      { envOk with destStatusRes := .error () } drOk 30).hasError = false := rfl
example :
    (inspectDeploymentReplication cfg0 envOk
      { drOk with deletionTimestampSet := true } 30).runFinalizersCalled = true := rfl
example :
    (inspectDeploymentReplication cfg0 envOk drOk 30).sourceDiag = some (.ok true) := rfl

/-! ### Claim theorems -/

/-- C8: for every inspection of an object whose Status.Phase is Failed, the
inspector issues no cancel or configure call, runs no finalizers, attempts
no status write, updates no condition, leaves the condition list and the
error streak untouched, and returns `lastInterval` unchanged (the Failed
guard returns before the error-streak block and the clamp).  The right-hand
side does not mention `env`, so no remote outcome influences the result. -/
theorem C8_failed_phase_noop (cfg : Config) (env : Env)
    (dr : DeploymentReplication) (lastInterval : Nat)
    (h : dr.phaseFailed = true) :
    inspectDeploymentReplication cfg env dr lastInterval =
      { nextInterval := lastInterval
        hasError := false
        recentInspectionErrors := dr.recentInspectionErrors
        conditions := dr.conditions
        updateStatusNeeded := false
        configureSyncNeeded := false
        cancelSyncNeeded := false
        runFinalizersCalled := false
        cancelCalled := false
        synchronizeCalled := false
        sourceDiag := none } := by
  simp [inspectDeploymentReplication, h]

/-- Witness for C8 at a concrete Failed object with streak 1 and a
`lastInterval` of 90 s (above the maximum — returned unclamped). -/
theorem C8_failed_phase_noop_witness :
    inspectDeploymentReplication cfg0 envOk drFailed 90 =
      { nextInterval := 90
        hasError := false
        recentInspectionErrors := 1
        conditions := drFailed.conditions
        updateStatusNeeded := false
        configureSyncNeeded := false
        cancelSyncNeeded := false
        runFinalizersCalled := false
        cancelCalled := false
        synchronizeCalled := false
        sourceDiag := none } :=
  C8_failed_phase_noop cfg0 envOk drFailed 90 rfl

/-- C2: once the deletion timestamp is set, an inspection never issues a
CancelSynchronization or Synchronize call, whatever the remote statuses
(the whole destination-client branch sits in the non-deletion else). -/
theorem C2_no_action_post_deletion (cfg : Config) (env : Env)
    (dr : DeploymentReplication) (lastInterval : Nat)
    (h : dr.deletionTimestampSet = true) :
    (inspectDeploymentReplication cfg env dr lastInterval).cancelCalled = false ∧
    (inspectDeploymentReplication cfg env dr lastInterval).synchronizeCalled = false := by
  cases hp : dr.phaseFailed
  · rw [inspect_eq_body cfg env dr lastInterval hp,
        inspectPreStreak_deletion env dr lastInterval h]
    exact ⟨rfl, rfl⟩
  · simp [inspectDeploymentReplication, hp]

/-- Witness for C2: a deletion-marked object whose destination reports an
active sync from a wrong source still gets no cancel and no configure
call. -/
theorem C2_no_action_post_deletion_witness :
    (inspectDeploymentReplication cfg0 envMisdirected drDeleting 30).cancelCalled = false ∧
    (inspectDeploymentReplication cfg0 envMisdirected drDeleting 30).synchronizeCalled = false :=
  C2_no_action_post_deletion cfg0 envMisdirected drDeleting 30 rfl

/-- C3: in any single inspection the flags `configureSyncNeeded` and
`cancelSyncNeeded` are never both true, and consequently at most one of the
CancelSynchronization and Synchronize calls is issued. -/
theorem C3_configure_cancel_exclusive (cfg : Config) (env : Env)
    (dr : DeploymentReplication) (lastInterval : Nat) :
    ((inspectDeploymentReplication cfg env dr lastInterval).configureSyncNeeded &&
     (inspectDeploymentReplication cfg env dr lastInterval).cancelSyncNeeded) = false ∧
    ((inspectDeploymentReplication cfg env dr lastInterval).synchronizeCalled &&
     (inspectDeploymentReplication cfg env dr lastInterval).cancelCalled) = false := by
  cases hp : dr.phaseFailed
  · cases hd : dr.deletionTimestampSet
    · cases hc : env.createDestClientErr
      · rw [inspect_eq_body cfg env dr lastInterval hp,
            inspectPreStreak_active env dr lastInterval hd hc]
        refine ⟨?_, ?_⟩
        · exact destInspect_flags_exclusive env.destStatusRes
            env.sourceEndpointRes dr.conditions
        · exact actPart_calls_exclusive
            (destInspect env.destStatusRes env.sourceEndpointRes dr.conditions).1
            (destInspect env.destStatusRes env.sourceEndpointRes dr.conditions).2.1
            (destInspect env.destStatusRes env.sourceEndpointRes dr.conditions).2.2.1
            (destInspect env.destStatusRes env.sourceEndpointRes dr.conditions).2.2.2
            env.sourceEndpointRes env.updateCRStatusErr env.cancelErr
            env.authRes env.synchronizeErr lastInterval
            (destInspect_flags_exclusive env.destStatusRes
              env.sourceEndpointRes dr.conditions)
      · rw [inspect_eq_body cfg env dr lastInterval hp,
            inspectPreStreak_clientErr env dr lastInterval hd hc]
        exact ⟨rfl, rfl⟩
    · rw [inspect_eq_body cfg env dr lastInterval hp,
          inspectPreStreak_deletion env dr lastInterval hd]
      exact ⟨rfl, rfl⟩
  · simp [inspectDeploymentReplication, hp]

/-- C9: the source-side cross-check is purely diagnostic: changing the
outcomes of the source-client creation, the source status fetch and the
destination-endpoint derivation (the three inputs it consumes) changes
nothing observable about the inspection — not the conditions, not
`hasError`, not the calls issued, not the returned interval, not the
streak. -/
theorem C9_source_check_diagnostic (cfg : Config) (env : Env)
    (dr : DeploymentReplication) (lastInterval : Nat) (x : Bool)
    (y : Except Unit SyncInfo) (z : Except Unit Endpoint) :
    observables (inspectDeploymentReplication cfg
      { env with
        createSourceClientErr := x
        sourceStatusRes := y
        destEndpointRes := z } dr lastInterval) =
    observables (inspectDeploymentReplication cfg env dr lastInterval) := by
  cases env with
  | mk af rf cdc dsr sep dep csc ssr uce ce ar se =>
    cases hp : dr.phaseFailed with
    | true => simp [inspectDeploymentReplication, hp, observables]
    | false =>
      cases hd : dr.deletionTimestampSet with
      | true =>
        simp [inspectDeploymentReplication, inspectPreStreak, hp, hd, observables]
      | false =>
        cases cdc with
        | true =>
          simp [inspectDeploymentReplication, inspectPreStreak, hp, hd, observables]
        | false =>
          simp only [inspectDeploymentReplication, inspectPreStreak, inspectActive,
            hp, hd, observables]
          rfl

/-- C10: when creating the destination syncmaster client fails (phase not
Failed, no deletion), the whole inspection body is skipped: no status fetch
outcome, condition, or call outcome influences the result (the right-hand
side does not mention `env`), `hasError` stays false, the streak resets to
zero, and the returned interval is `lastInterval` clamped only from above by
`maxInspectionInterval`. -/
theorem C10_client_create_error_skips_body (cfg : Config) (env : Env)
    (dr : DeploymentReplication) (lastInterval : Nat)
    (hp : dr.phaseFailed = false) (hd : dr.deletionTimestampSet = false)
    (hc : env.createDestClientErr = true) :
    inspectDeploymentReplication cfg env dr lastInterval =
      { nextInterval := if lastInterval > cfg.maxInspectionInterval then
          cfg.maxInspectionInterval else lastInterval
        hasError := false
        recentInspectionErrors := 0
        conditions := dr.conditions
        updateStatusNeeded := false
        configureSyncNeeded := false
        cancelSyncNeeded := false
        runFinalizersCalled := false
        cancelCalled := false
        synchronizeCalled := false
        sourceDiag := none } := by
  rw [inspect_eq_body cfg env dr lastInterval hp,
      inspectPreStreak_clientErr env dr lastInterval hd hc]
  rfl

/-- Witness for C10: client creation fails with a previous streak of 2 and
`lastInterval` of 90 s — the streak resets to 0 and 90 s is clamped to the
60 s maximum. -/
theorem C10_client_create_error_skips_body_witness :
    inspectDeploymentReplication cfg0 envClientErr drStreak2 90 =
      { nextInterval := 60
        hasError := false
        recentInspectionErrors := 0
        conditions := drStreak2.conditions
        updateStatusNeeded := false
        configureSyncNeeded := false
        cancelSyncNeeded := false
        runFinalizersCalled := false
        cancelCalled := false
        synchronizeCalled := false
        sourceDiag := none } :=
  C10_client_create_error_skips_body cfg0 envClientErr drStreak2 90 rfl rfl rfl

/-- C1 counterexample: with a failing destination status fetch (phase
normal, no deletion, previous streak 0, lastInterval 30 s) the inspection
does NOT mark hasError — contrary to the claim — so the returned interval is
30 s rather than minInspectionInterval = 10 s and the streak stays 0 rather
than becoming 1. -/
theorem C1_counterexample :
    (inspectDeploymentReplication cfg0 envFetchErr drOk 30).hasError = false ∧
    ¬((inspectDeploymentReplication cfg0 envFetchErr drOk 30).nextInterval =
        cfg0.minInspectionInterval) ∧
    ¬((inspectDeploymentReplication cfg0 envFetchErr drOk 30).recentInspectionErrors = 1) := by
  refine ⟨rfl, ?_, ?_⟩ <;> decide

/-- C1 amended: when fetching the destination SyncStatus fails (phase not
Failed, no deletion, destination client created), the failure is only
logged: hasError is NOT set, the destination inspection is skipped (no
condition change, no flags, no cancel/configure call, no status write), the
streak resets to zero, and the returned interval is lastInterval clamped
only from above by maxInspectionInterval. -/
theorem C1_fetch_error_only_logged (cfg : Config) (env : Env)
    (dr : DeploymentReplication) (lastInterval : Nat)
    (hp : dr.phaseFailed = false) (hd : dr.deletionTimestampSet = false)
    (hc : env.createDestClientErr = false)
    (he : env.destStatusRes = Except.error ()) :
    observables (inspectDeploymentReplication cfg env dr lastInterval) =
      (if lastInterval > cfg.maxInspectionInterval then cfg.maxInspectionInterval
         else lastInterval,
       false, 0, dr.conditions, false, false, false, false, false, false) := by
  rw [inspect_eq_body cfg env dr lastInterval hp,
      inspectPreStreak_active env dr lastInterval hd hc,
      inspectActive_fetchErr env dr.conditions lastInterval he]
  rfl

/-- Witness for the amended C1 at a concrete input. -/
theorem C1_fetch_error_only_logged_witness :
    observables (inspectDeploymentReplication cfg0 envFetchErr drOk 30) =
      (30, false, 0, drOk.conditions, false, false, false, false, false, false) :=
  C1_fetch_error_only_logged cfg0 envFetchErr drOk 30 rfl rfl rfl rfl

/-- C4 counterexample: an inspection of a Failed-phase object has no error,
yet the streak is left untouched (here 1) rather than reset to 0 — the
Failed guard returns before the error-streak policy runs. -/
theorem C4_counterexample :
    (inspectDeploymentReplication cfg0 envOk drFailed 30).hasError = false ∧
    ¬((inspectDeploymentReplication cfg0 envOk drFailed 30).recentInspectionErrors = 0) :=
  ⟨rfl, by decide⟩

/-- C4 amended: for every inspection that is not short-circuited by the
Failed phase: if hasError and the streak was previously zero, the returned
interval is minInspectionInterval and the streak becomes 1; if hasError and
the streak was non-zero, the returned interval is the pre-streak value
(clamped only from above) and the streak keeps its previous value; if no
error, the streak resets to zero.  (A Failed-phase inspection returns
before this policy and leaves the streak untouched.) -/
theorem C4_error_streak_policy (cfg : Config) (env : Env)
    (dr : DeploymentReplication) (lastInterval : Nat)
    (hp : dr.phaseFailed = false)
    (hm : cfg.minInspectionInterval ≤ cfg.maxInspectionInterval) :
    ((inspectDeploymentReplication cfg env dr lastInterval).hasError = true →
      dr.recentInspectionErrors = 0 →
      (inspectDeploymentReplication cfg env dr lastInterval).nextInterval =
          cfg.minInspectionInterval ∧
      (inspectDeploymentReplication cfg env dr lastInterval).recentInspectionErrors = 1) ∧
    ((inspectDeploymentReplication cfg env dr lastInterval).hasError = true →
      dr.recentInspectionErrors ≠ 0 →
      (inspectDeploymentReplication cfg env dr lastInterval).nextInterval =
          (if (inspectPreStreak env dr lastInterval).nextInterval >
              cfg.maxInspectionInterval then cfg.maxInspectionInterval
           else (inspectPreStreak env dr lastInterval).nextInterval) ∧
      (inspectDeploymentReplication cfg env dr lastInterval).recentInspectionErrors =
          dr.recentInspectionErrors) ∧
    ((inspectDeploymentReplication cfg env dr lastInterval).hasError = false →
      (inspectDeploymentReplication cfg env dr lastInterval).recentInspectionErrors = 0) := by
  rw [inspect_eq_body cfg env dr lastInterval hp]
  dsimp only
  refine ⟨?_, ?_, ?_⟩
  · intro hhe h0
    rw [hhe, h0, applyErrorPolicy_error_zero cfg _ hm]
    exact ⟨rfl, rfl⟩
  · intro hhe hne
    rw [hhe, applyErrorPolicy_error_pos cfg _ _ hne]
    exact ⟨rfl, rfl⟩
  · intro hhe
    rw [hhe]
    rfl

/-- Witness for the amended C4: a deletion-path finalizer failure with a
previous streak of 0 yields hasError, interval 10 s (= the minimum) and
streak 1. -/
theorem C4_error_streak_policy_witness :
    (inspectDeploymentReplication cfg0 envRunFinErr drDeleting 30).hasError = true ∧
    (inspectDeploymentReplication cfg0 envRunFinErr drDeleting 30).nextInterval = 10 ∧
    (inspectDeploymentReplication cfg0 envRunFinErr drDeleting 30).recentInspectionErrors = 1 :=
  ⟨rfl,
   ((C4_error_streak_policy cfg0 envRunFinErr drDeleting 30 rfl (by decide)).1 rfl rfl).1,
   ((C4_error_streak_policy cfg0 envRunFinErr drDeleting 30 rfl (by decide)).1 rfl rfl).2⟩

/-- C5 counterexample: a no-error inspection with lastInterval = 0 returns
0 s, below minInspectionInterval = 10 s — the final clamp does not bound the
result from below. -/
theorem C5_counterexample :
    ¬(cfg0.minInspectionInterval ≤
        (inspectDeploymentReplication cfg0 envOk drOk 0).nextInterval ∧
      (inspectDeploymentReplication cfg0 envOk drOk 0).nextInterval ≤
        cfg0.maxInspectionInterval) := by
  decide

/-- C5 amended: the final clamp bounds the result only from above — every
inspection not short-circuited by the Failed phase returns at most
maxInspectionInterval.  (No lower bound is enforced, and a Failed-phase
inspection returns lastInterval without clamping.) -/
theorem C5_interval_upper_clamp (cfg : Config) (env : Env)
    (dr : DeploymentReplication) (lastInterval : Nat)
    (hp : dr.phaseFailed = false) :
    (inspectDeploymentReplication cfg env dr lastInterval).nextInterval ≤
      cfg.maxInspectionInterval := by
  rw [inspect_eq_body cfg env dr lastInterval hp]
  exact applyErrorPolicy_le cfg dr.recentInspectionErrors _ _

/-- Witness for the amended C5 at a concrete input (90 s clamps to 60 s). -/
theorem C5_interval_upper_clamp_witness :
    (inspectDeploymentReplication cfg0 envOk drOk 90).nextInterval ≤
      cfg0.maxInspectionInterval :=
  C5_interval_upper_clamp cfg0 envOk drOk 90 rfl

/-- C6: when the destination status fetch succeeds and the destination is
inactive, the inspector updates the Configured condition to
false/"Inactive", and — the source endpoint and TLS authentication having
been derived from the Spec — issues the Synchronize (configure) call on the
destination client; when that call succeeds (and the status write, if one
was needed, succeeds, so no error is recorded), the returned interval is
10 seconds. -/
theorem C6_inactive_destination_configures (cfg : Config) (env : Env)
    (dr : DeploymentReplication) (lastInterval : Nat)
    (hp : dr.phaseFailed = false) (hd : dr.deletionTimestampSet = false)
    (hc : env.createDestClientErr = false)
    (ds : SyncInfo) (hds : env.destStatusRes = Except.ok ds)
    (hact : ds.isActive = false)
    (ep : Endpoint) (hep : env.sourceEndpointRes = Except.ok ep)
    (hauth : env.authRes = Except.ok ()) (hsync : env.synchronizeErr = false)
    (hupd : env.updateCRStatusErr = false)
    (hmax : 10 ≤ cfg.maxInspectionInterval) :
    (inspectDeploymentReplication cfg env dr lastInterval).conditions =
      (conditionsUpdate dr.conditions "Configured" false "Inactive"
        "Destination syncmaster is configured correctly but in-active").2 ∧
    (⟨"Configured", false, "Inactive",
      "Destination syncmaster is configured correctly but in-active"⟩ : Condition) ∈
      (inspectDeploymentReplication cfg env dr lastInterval).conditions ∧
    (inspectDeploymentReplication cfg env dr lastInterval).synchronizeCalled = true ∧
    (inspectDeploymentReplication cfg env dr lastInterval).hasError = false ∧
    (inspectDeploymentReplication cfg env dr lastInterval).nextInterval = 10 := by
  rw [inspect_eq_body cfg env dr lastInterval hp,
      inspectPreStreak_active env dr lastInterval hd hc,
      inspectActive_inactive env dr.conditions lastInterval ds hds hact ep hep
        hauth hsync hupd]
  dsimp only
  refine ⟨rfl, conditionsUpdate_mem _ _ _ _ _, rfl, rfl, ?_⟩
  rw [applyErrorPolicy_noError]
  dsimp only
  rw [if_neg (by omega)]

/-- Witness for C6 at a concrete inactive destination. -/
theorem C6_inactive_destination_configures_witness :
    (inspectDeploymentReplication cfg0 envInactive drNoConds 30).conditions =
      [⟨"Configured", false, "Inactive",
        "Destination syncmaster is configured correctly but in-active"⟩] ∧
    (⟨"Configured", false, "Inactive",
      "Destination syncmaster is configured correctly but in-active"⟩ : Condition) ∈
      (inspectDeploymentReplication cfg0 envInactive drNoConds 30).conditions ∧
    (inspectDeploymentReplication cfg0 envInactive drNoConds 30).synchronizeCalled = true ∧
    (inspectDeploymentReplication cfg0 envInactive drNoConds 30).hasError = false ∧
    (inspectDeploymentReplication cfg0 envInactive drNoConds 30).nextInterval = 10 :=
  C6_inactive_destination_configures cfg0 envInactive drNoConds 30 rfl rfl rfl
    ⟨false, [], []⟩ rfl rfl ["src"] rfl rfl rfl rfl (by decide)

/-- C7 counterexample: a failing finalizer-add write with everything else
benign is only logged — hasError stays false and the streak resets to 0,
contrary to the claim that finalizer-write failures are treated as
hasError. -/
theorem C7_counterexample :
    (inspectDeploymentReplication cfg0 envAddFinErr drOk 30).hasError = false ∧
    (inspectDeploymentReplication cfg0 envAddFinErr drOk 30).recentInspectionErrors = 0 :=
  ⟨rfl, rfl⟩

/-- C7 amended: a failing status update write (attempted because a
condition changed) is logged and treated as hasError; a failing
finalizer-add write is only logged and has no effect at all on the
inspection's outcome (the result is independent of the finalizer-add
outcome). -/
theorem C7_persistence_error_policy (cfg : Config) (env : Env)
    (dr : DeploymentReplication) (lastInterval : Nat) (b : Bool) :
    ((inspectDeploymentReplication cfg env dr lastInterval).updateStatusNeeded = true →
      env.updateCRStatusErr = true →
      (inspectDeploymentReplication cfg env dr lastInterval).hasError = true) ∧
    inspectDeploymentReplication cfg { env with addFinalizersErr := b } dr lastInterval =
      inspectDeploymentReplication cfg env dr lastInterval := by
  constructor
  · intro hu hue
    cases hp : dr.phaseFailed
    · cases hd : dr.deletionTimestampSet
      · cases hc : env.createDestClientErr
        · rw [inspect_eq_body cfg env dr lastInterval hp,
              inspectPreStreak_active env dr lastInterval hd hc] at hu ⊢
          have hu2 : (destInspect env.destStatusRes env.sourceEndpointRes
              dr.conditions).1 = true := hu
          show (actPart
            (destInspect env.destStatusRes env.sourceEndpointRes dr.conditions).1
            (destInspect env.destStatusRes env.sourceEndpointRes dr.conditions).2.1
            (destInspect env.destStatusRes env.sourceEndpointRes dr.conditions).2.2.1
            (destInspect env.destStatusRes env.sourceEndpointRes dr.conditions).2.2.2
            env.sourceEndpointRes env.updateCRStatusErr env.cancelErr env.authRes
            env.synchronizeErr lastInterval).hasError = true
          rw [hu2, hue]
          exact actPart_statusWrite_error _ _ _ _ _ _ _ _
        · rw [inspect_eq_body cfg env dr lastInterval hp,
              inspectPreStreak_clientErr env dr lastInterval hd hc] at hu
          simp at hu
      · rw [inspect_eq_body cfg env dr lastInterval hp,
            inspectPreStreak_deletion env dr lastInterval hd] at hu
        simp at hu
    · simp [inspectDeploymentReplication, hp] at hu
  · cases env
    rfl

/-- Witness for the amended C7: the destination is inactive, the condition
changes (forcing a status write) and the write fails — hasError is set; and
the whole result is unchanged when additionally the finalizer-add fails. -/
theorem C7_persistence_error_policy_witness :
    (inspectDeploymentReplication cfg0 envInactiveUpdErr drNoConds 30).hasError = true ∧
    inspectDeploymentReplication cfg0
        { envInactiveUpdErr with addFinalizersErr := true } drNoConds 30 =
      inspectDeploymentReplication cfg0 envInactiveUpdErr drNoConds 30 :=
  ⟨(C7_persistence_error_policy cfg0 envInactiveUpdErr drNoConds 30 true).1 rfl rfl,
   (C7_persistence_error_policy cfg0 envInactiveUpdErr drNoConds 30 true).2⟩

end KubeArango
